import Mathlib

/-!
Verification of the weather-art repository (beijing_air_quality_art.py and
kandinsky_air_art.py) against its natural-language specification.

The sensor values are modelled as rationals (the Python floats carry exact
decimal literals in every computation the claims touch), timestamps as
naturals in chronological encounter order, and the random sources as
explicitly passed values: a `Rand` bundle per record standing for the values
`random.uniform` / `random.randint` return, constrained exactly as those
calls constrain them (`randint(5,8)` becomes `5 + Fin 4`).  Geometry that
goes through `np.cos` / `np.sin` lives in `ℝ`.
-/

namespace WeatherArt

/-- One sensor record: the columns of the tabular source
(`datetime, station, PM2.5, PM10, SO2, NO2, CO, O3, TEMP, PRES, DEWP, RAIN,
WSPM, wd`).  `datetime` is a natural standing for the timestamp. -/
structure Record where
  datetime : ℕ
  station : String
  pm25 : ℚ
  pm10 : ℚ
  so2 : ℚ
  no2 : ℚ
  co : ℚ
  o3 : ℚ
  temp : ℚ
  pres : ℚ
  dewp : ℚ
  rain : ℚ
  wspm : ℚ
  wd : ℚ
deriving DecidableEq

/-- The six air-quality severity levels of `BeijingAirQualityArt.aqi_colors`:
优 / 良 / 轻度污染 / 中度污染 / 重度污染 / 严重污染. -/
inductive AqiLevel
  | excellent
  | good
  | lightPollution
  | moderatePollution
  | heavyPollution
  | severePollution
deriving DecidableEq

/-- Numeric severity rank of a level, in the order the source lists them. -/
def levelSeverity : AqiLevel → ℕ
  | .excellent => 0
  | .good => 1
  | .lightPollution => 2
  | .moderatePollution => 3
  | .heavyPollution => 4
  | .severePollution => 5

/-- `BeijingAirQualityArt.get_aqi_level` (beijing_air_quality_art.py,
lines 139-152): the PM2.5 classifier with inclusive upper breakpoints
35/75/115/150/250. -/
def get_aqi_level (pm25 : ℚ) : AqiLevel :=
  if pm25 ≤ 35 then .excellent
  else if pm25 ≤ 75 then .good
  else if pm25 ≤ 115 then .lightPollution
  else if pm25 ≤ 150 then .moderatePollution
  else if pm25 ≤ 250 then .heavyPollution
  else .severePollution

/-- The fixed color bound to each severity level (`aqi_colors`). -/
def aqiColor : AqiLevel → String
  | .excellent => "#00E400"
  | .good => "#FFFF00"
  | .lightPollution => "#FF7E00"
  | .moderatePollution => "#FF0000"
  | .heavyPollution => "#8F3F97"
  | .severePollution => "#7E0023"

/-- The `datetime` column of the store, in record order
(`self.data['datetime']`). -/
def datetimes (store : List Record) : List ℕ :=
  store.map (fun r => r.datetime)

/-- `pandas.Series.unique`: the distinct values of a column in first-encounter
order (`self.data['datetime'].unique()`). -/
def uniqueTimes : List ℕ → List ℕ
  | [] => []
  | t :: ts => t :: (uniqueTimes ts).filter (fun s => s ≠ t)

/-- The reference timestamp the animation callback picks for a frame number
(`kandinsky_air_art.py` line 416, identically `beijing_air_quality_art.py`
line 179):
`current_time = self.data['datetime'].iloc[frame % len(self.data['datetime'].unique())]`.
Note the positional index goes into the FULL `datetime` column, while the
modulus is the count of DISTINCT timestamps.  `getD` with default `0` stands
for `iloc`; all theorems about it carry the non-empty-store precondition
under which the index is in bounds, as `iloc` raises otherwise. -/
def refTimestamp (store : List Record) (frame : ℕ) : ℕ :=
  (datetimes store).getD (frame % (uniqueTimes (datetimes store)).length) 0

/-- The record slice the callback selects for a frame:
`current_data = self.data[self.data['datetime'] == current_time]`. -/
def currentSlice (store : List Record) (frame : ℕ) : List Record :=
  store.filter (fun r => r.datetime == refTimestamp store frame)

/-- The four palette families of `kandinsky_colors`. -/
inductive Palette
  | primary
  | secondary
  | accent
  | neutral
deriving DecidableEq

/-- The `kandinsky_colors` dict: six fixed colors per family. -/
def kandinskyColors : Palette → List String
  | .primary => ["#FF6B6B", "#4ECDC4", "#45B7D1", "#96CEB4", "#FFEAA7", "#DDA0DD"]
  | .secondary => ["#FF8E53", "#6C5CE7", "#A29BFE", "#FD79A8", "#FDCB6E", "#6C5CE7"]
  | .accent => ["#E17055", "#00B894", "#0984E3", "#00CEC9", "#FDCB6E", "#E84393"]
  | .neutral => ["#2D3436", "#636E72", "#74B9FF", "#81ECEC", "#FAB1A0", "#FF7675"]

/-- `KandinskyAirArt.get_kandinsky_color` (kandinsky_air_art.py, lines
130-146): value buckets 50/100/150/200/250 select one of the family's six
colors. -/
def get_kandinsky_color (value : ℚ) (family : Palette) : String :=
  let colors := kandinskyColors family
  if value < 50 then colors.getD 0 ""
  else if value < 100 then colors.getD 1 ""
  else if value < 150 then colors.getD 2 ""
  else if value < 200 then colors.getD 3 ""
  else if value < 250 then colors.getD 4 ""
  else colors.getD 5 ""

/-- The random draws one generator makes for one record: positions from
`random.uniform`, `alpha` and `rotation` from `random.uniform`, and the
`random.randint(5, 8)` side count encoded as `5 + sides` with `sides : Fin 4`
(exactly the four values that call can return). -/
structure Rand where
  x : ℚ
  y : ℚ
  alpha : ℚ
  rotation : ℚ
  sides : Fin 4
deriving DecidableEq

/-- Degrees to radians, `np.radians`. -/
noncomputable def degToRad (d : ℚ) : ℝ :=
  (d : ℝ) * Real.pi / 180

/-- The circle dict built by `create_abstract_circles` for one record
(lines 148-177): radius clamped from PM2.5, position displaced by a
wind-direction vector. -/
structure CircleP where
  x : ℝ
  y : ℝ
  radius : ℚ
  color : String
  alpha : ℚ
  rotation : ℚ

/-- The triangle dict built by `create_abstract_triangles` for one record
(lines 179-207). -/
structure TriangleP where
  x : ℚ
  y : ℚ
  size : ℚ
  color : String
  alpha : ℚ
  rotation : ℚ
deriving DecidableEq

/-- The rectangle dict built by `create_abstract_rectangles` for one record
(lines 209-239). -/
structure RectangleP where
  x : ℚ
  y : ℚ
  width : ℚ
  height : ℚ
  color : String
  alpha : ℚ
  rotation : ℚ
deriving DecidableEq

/-- The line dict built by `create_abstract_lines` (lines 241-277). -/
structure LineP where
  startx : ℚ
  starty : ℚ
  endx : ℝ
  endy : ℝ
  color : String
  width : ℚ
  alpha : ℚ

/-- The polygon dict built by `create_abstract_polygons` (lines 279-311). -/
structure PolygonP where
  vertices : List (ℝ × ℝ)
  color : String
  alpha : ℚ
  rotation : ℚ

/-- Loop body of `create_abstract_circles`:
`size = max(0.5, min(3.0, pm25 / 50))`, color from the primary family,
position `(x + wind_x, y + wind_y)` with the wind displacement
`0.5 * (cos, sin)(radians(wd))`. -/
noncomputable def circleFor (r : Record) (rd : Rand) : CircleP :=
  { x := (rd.x : ℝ) + Real.cos (degToRad r.wd) * (1/2)
    y := (rd.y : ℝ) + Real.sin (degToRad r.wd) * (1/2)
    radius := max (1/2) (min 3 (r.pm25 / 50))
    color := get_kandinsky_color r.pm25 .primary
    alpha := rd.alpha
    rotation := rd.rotation }

/-- `size = max(0.3, min(2.0, so2 / 30))` of the triangle rule. -/
def triangleSizeBase (so2 : ℚ) : ℚ :=
  max (3/10) (min 2 (so2 / 30))

/-- `temp_factor = (temp + 20) / 40` of the triangle rule. -/
def tempFactor (temp : ℚ) : ℚ :=
  (temp + 20) / 40

/-- Loop body of `create_abstract_triangles`: the stored size is the clamped
base size multiplied by the temperature factor. -/
def triangleFor (r : Record) (rd : Rand) : TriangleP :=
  { x := rd.x
    y := rd.y
    size := triangleSizeBase r.so2 * tempFactor r.temp
    color := get_kandinsky_color r.so2 .secondary
    alpha := rd.alpha
    rotation := rd.rotation }

/-- Loop body of `create_abstract_rectangles`:
`width  = height = max(0.2, min(1.5, no2 / 40))`,
`alpha = max(0.2, min(0.8, dewp / 100))`. -/
def rectangleFor (r : Record) (rd : Rand) : RectangleP :=
  { x := rd.x
    y := rd.y
    width := max (1/5) (min (3/2) (r.no2 / 40))
    height := max (1/5) (min (3/2) (r.no2 / 40))
    color := get_kandinsky_color r.no2 .accent
    alpha := max (1/5) (min (4/5) (r.dewp / 100))
    rotation := rd.rotation }

/-- Loop body of `create_abstract_lines`: a line is appended only when
`wind_speed > 2`; then `length = max(1.0, min(4.0, wspm / 2))`, the endpoint
is `start + length * (cos, sin)(radians(wd))` and
`width = max(1, min(5, wspm))`. -/
noncomputable def lineFor (r : Record) (rd : Rand) : Option LineP :=
  if 2 < r.wspm then
    some
      { startx := rd.x
        starty := rd.y
        endx := (rd.x : ℝ) + Real.cos (degToRad r.wd) * (max 1 (min 4 (r.wspm / 2)) : ℚ)
        endy := (rd.y : ℝ) + Real.sin (degToRad r.wd) * (max 1 (min 4 (r.wspm / 2)) : ℚ)
        color := get_kandinsky_color r.co .neutral
        width := max 1 (min 5 r.wspm)
        alpha := rd.alpha }
  else none

/-- `size = max(0.5, min(2.0, o3 / 100))` of the polygon rule. -/
def polyRadius (o3 : ℚ) : ℚ :=
  max (1/2) (min 2 (o3 / 100))

/-- The vertex loop of `create_abstract_polygons`: vertex `i` sits at angle
`2 * pi * i / sides` on the circle of the given radius around the center. -/
noncomputable def polygonVertices (cx cy radius : ℝ) (sides : ℕ) : List (ℝ × ℝ) :=
  (List.range sides).map fun (i : ℕ) =>
    (cx + radius * Real.cos (2 * Real.pi * (i : ℝ) / (sides : ℝ)),
     cy + radius * Real.sin (2 * Real.pi * (i : ℝ) / (sides : ℝ)))

/-- Loop body of `create_abstract_polygons`: a polygon is appended only when
`o3 > 50`, with `sides = randint(5, 8)` vertices. -/
noncomputable def polygonFor (r : Record) (rd : Rand) : Option PolygonP :=
  if 50 < r.o3 then
    some
      { vertices := polygonVertices (rd.x : ℝ) (rd.y : ℝ) ((polyRadius r.o3 : ℚ) : ℝ)
          (5 + (rd.sides : ℕ))
        color := get_kandinsky_color r.o3 .primary
        alpha := rd.alpha
        rotation := rd.rotation }
  else none

/-- Pair every record of a slice with the random draws its generator loop
iteration makes. -/
def withRand (rows : List Record) (rnd : ℕ → Rand) : List (Record × Rand) :=
  List.zipWith (fun r i => (r, rnd i)) rows (List.range rows.length)

/-- `create_abstract_circles` over a slice. -/
noncomputable def create_abstract_circles (rows : List (Record × Rand)) : List CircleP :=
  rows.map fun p => circleFor p.1 p.2

/-- `create_abstract_triangles` over a slice. -/
def create_abstract_triangles (rows : List (Record × Rand)) : List TriangleP :=
  rows.map fun p => triangleFor p.1 p.2

/-- `create_abstract_rectangles` over a slice. -/
def create_abstract_rectangles (rows : List (Record × Rand)) : List RectangleP :=
  rows.map fun p => rectangleFor p.1 p.2

/-- `create_abstract_lines` over a slice: at most one line per record. -/
noncomputable def create_abstract_lines (rows : List (Record × Rand)) : List LineP :=
  rows.filterMap fun p => lineFor p.1 p.2

/-- `create_abstract_polygons` over a slice: at most one polygon per record. -/
noncomputable def create_abstract_polygons (rows : List (Record × Rand)) : List PolygonP :=
  rows.filterMap fun p => polygonFor p.1 p.2

/-- One composed frame: the five primitive lists the callback builds plus the
axes background color. -/
structure Composition where
  circles : List CircleP
  triangles : List TriangleP
  rectangles : List RectangleP
  lines : List LineP
  polygons : List PolygonP
  background : String

/-- The background `setup_plot` installs (line 54): `'#e5dbc3'`. -/
def defaultBg : String := "#e5dbc3"

/-- `add_background_gradient` (lines 439-453): a step function of the slice's
mean PM2.5 over the bands 50/100/150. -/
def backgroundOf (slice : List Record) : String :=
  let avg := (slice.map fun r => r.pm25).sum / (slice.length : ℚ)
  if avg < 50 then "#e5dbc3"
  else if avg < 100 then "#d4c5a0"
  else if avg < 150 then "#c3b07d"
  else "#b29b5a"

/-- `create_abstract_visualization` from the reference timestamp on
(lines 417-437): select the slice by exact timestamp equality; on an empty
slice return with nothing drawn and the `setup_plot` background; otherwise
run the five generators (each with its own stream of random draws) and color
the background from the slice's mean PM2.5. -/
noncomputable def composeForTime (store : List Record) (t : ℕ)
    (rc rt rr rl rp : ℕ → Rand) : Composition :=
  let slice := store.filter (fun r => r.datetime == t)
  if slice.isEmpty then
    { circles := [], triangles := [], rectangles := [], lines := [],
      polygons := [], background := defaultBg }
  else
    { circles := create_abstract_circles (withRand slice rc)
      triangles := create_abstract_triangles (withRand slice rt)
      rectangles := create_abstract_rectangles (withRand slice rr)
      lines := create_abstract_lines (withRand slice rl)
      polygons := create_abstract_polygons (withRand slice rp)
      background := backgroundOf slice }

/-- The whole animation callback for a frame number: reference timestamp,
then frame composition. -/
noncomputable def create_abstract_visualization (store : List Record) (frame : ℕ)
    (rc rt rr rl rp : ℕ → Rand) : Composition :=
  composeForTime store (refTimestamp store frame) rc rt rr rl rp

/-- The rotation applied at draw time (`draw_abstract_triangles` lines
345-351, `draw_abstract_rectangles` lines 372-378, `draw_abstract_polygons`
lines 395-404): rotate a vertex about a center by an angle in degrees using
the standard rotation matrix. -/
noncomputable def rotatePoint (c : ℝ × ℝ) (angleDeg : ℝ) (v : ℝ × ℝ) : ℝ × ℝ :=
  ((v.1 - c.1) * Real.cos (angleDeg * Real.pi / 180) -
     (v.2 - c.2) * Real.sin (angleDeg * Real.pi / 180) + c.1,
   (v.1 - c.1) * Real.sin (angleDeg * Real.pi / 180) +
     (v.2 - c.2) * Real.cos (angleDeg * Real.pi / 180) + c.2)

/-- Squared Euclidean distance between two points of the canvas. -/
def dist2 (p q : ℝ × ℝ) : ℝ :=
  (p.1 - q.1) ^ 2 + (p.2 - q.2) ^ 2

/-- Euclidean distance between two points of the canvas. -/
noncomputable def euclidDist (p q : ℝ × ℝ) : ℝ :=
  Real.sqrt (dist2 p q)

/-- C2: for every concentration `v` the PM2.5 classifier returns one of the
six fixed severity categories, severity is monotone non-decreasing in `v`
with breakpoints 35/75/115/150/250, values below/above the range clamp to
the first/last category, and the six sample values map as the spec lists
(10→优, 50→良, 100→轻度污染, 140→中度污染, 200→重度污染, 300→严重污染). -/
theorem C2_classifier_total_monotone_clamped :
    (∀ v : ℚ, get_aqi_level v = .excellent ∨ get_aqi_level v = .good ∨
      get_aqi_level v = .lightPollution ∨ get_aqi_level v = .moderatePollution ∨
      get_aqi_level v = .heavyPollution ∨ get_aqi_level v = .severePollution) ∧
    (∀ v w : ℚ, v ≤ w →
      levelSeverity (get_aqi_level v) ≤ levelSeverity (get_aqi_level w)) ∧
    (∀ v : ℚ, v ≤ 35 → get_aqi_level v = .excellent) ∧
    (∀ v : ℚ, 250 < v → get_aqi_level v = .severePollution) ∧
    get_aqi_level 10 = .excellent ∧ get_aqi_level 50 = .good ∧
    get_aqi_level 100 = .lightPollution ∧ get_aqi_level 140 = .moderatePollution ∧
    get_aqi_level 200 = .heavyPollution ∧ get_aqi_level 300 = .severePollution := by
  refine ⟨?_, ?_, ?_, ?_, ?_, ?_, ?_, ?_, ?_, ?_⟩
  · intro v
    unfold get_aqi_level
    split_ifs <;> simp
  · intro v w h
    unfold get_aqi_level
    split_ifs <;> simp [levelSeverity] <;> linarith
  · intro v h
    unfold get_aqi_level
    split_ifs <;> first | rfl | linarith
  · intro v h
    unfold get_aqi_level
    split_ifs <;> first | rfl | linarith
  all_goals decide

/-- C2 witness: the monotonicity and clamping parts evaluated at concrete
inputs. -/
theorem C2_classifier_witness :
    levelSeverity (get_aqi_level 10) ≤ levelSeverity (get_aqi_level 300) ∧
    get_aqi_level (-7) = .excellent ∧ get_aqi_level 9999 = .severePollution :=
  ⟨C2_classifier_total_monotone_clamped.2.1 10 300 (by norm_num),
   C2_classifier_total_monotone_clamped.2.2.1 (-7) (by norm_num),
   C2_classifier_total_monotone_clamped.2.2.2.1 9999 (by norm_num)⟩

/-- C10: each breakpoint value is assigned to the lower-severity category
(35→优, 75→良, 115→轻度污染, 150→中度污染, 250→重度污染), and 严重污染 is
returned exactly for values strictly above 250. -/
theorem C10_breakpoints_inclusive :
    get_aqi_level 35 = .excellent ∧ get_aqi_level 75 = .good ∧
    get_aqi_level 115 = .lightPollution ∧ get_aqi_level 150 = .moderatePollution ∧
    get_aqi_level 250 = .heavyPollution ∧
    ∀ v : ℚ, (get_aqi_level v = .severePollution ↔ 250 < v) := by
  refine ⟨by decide, by decide, by decide, by decide, by decide, ?_⟩
  intro v
  unfold get_aqi_level
  split_ifs <;> simp <;> linarith

/-- Deduplication never lengthens a list. -/
theorem uniqueTimes_length_le (l : List ℕ) : (uniqueTimes l).length ≤ l.length := by
  induction l with
  | nil => simp [uniqueTimes]
  | cons t ts ih =>
    simp only [uniqueTimes, List.length_cons]
    exact Nat.succ_le_succ (le_trans (List.length_filter_le _ _) ih)

/-- Deduplicating a non-empty list keeps its head. -/
theorem uniqueTimes_cons (t : ℕ) (ts : List ℕ) :
    uniqueTimes (t :: ts) = t :: (uniqueTimes ts).filter (fun s => s ≠ t) := rfl

/-- The distinct-timestamp count of a non-empty store is positive. -/
theorem uniqueTimes_length_pos (store : List Record) (h : store ≠ []) :
    0 < (uniqueTimes (datetimes store)).length := by
  cases store with
  | nil => exact absurd rfl h
  | cons r rest => simp [datetimes, uniqueTimes_cons]

/-- The frame index the callback uses is in bounds of the record collection,
and the reference timestamp is the `datetime` of the record at that index. -/
theorem refTimestamp_eq_get (store : List Record) (f : ℕ) (h : store ≠ []) :
    ∃ hlt : f % (uniqueTimes (datetimes store)).length < store.length,
      refTimestamp store f = store[f % (uniqueTimes (datetimes store)).length].datetime := by
  have hlen : (datetimes store).length = store.length := List.length_map _ _
  have hpos := uniqueTimes_length_pos store h
  have hle : (uniqueTimes (datetimes store)).length ≤ store.length :=
    le_trans (uniqueTimes_length_le _) (le_of_eq hlen)
  have hlt : f % (uniqueTimes (datetimes store)).length < store.length :=
    lt_of_lt_of_le (Nat.mod_lt f hpos) hle
  refine ⟨hlt, ?_⟩
  have hlt2 : f % (uniqueTimes (datetimes store)).length < (datetimes store).length := by
    rw [hlen]; exact hlt
  rw [refTimestamp, List.getD_eq_getElem _ _ hlt2]
  simp [datetimes]

/-- C7: the frame-to-timestamp mapping of the scheduler is periodic with
period `N`, the count of distinct timestamps: the timestamp chosen for frame
`f` equals the one chosen for frame `f mod N`, and frame `0` gets the first
distinct timestamp of the series, so after exactly `N` ticks the reference
timestamp is the first timestamp again. -/
theorem C7_scheduler_periodic (store : List Record) (f : ℕ) (h : store ≠ []) :
    refTimestamp store f =
      refTimestamp store (f % (uniqueTimes (datetimes store)).length) ∧
    refTimestamp store 0 = (uniqueTimes (datetimes store)).headD 0 := by
  constructor
  · unfold refTimestamp
    rw [Nat.mod_mod_of_dvd f dvd_rfl]
  · cases store with
    | nil => exact absurd rfl h
    | cons r rest =>
      simp [refTimestamp, datetimes, uniqueTimes_cons, Nat.zero_mod]

/-- C7 witness: a two-record store with distinct timestamps, evaluated at
frame 3. -/
theorem C7_scheduler_periodic_witness :
    refTimestamp [⟨0, "a", 0, 0, 0, 0, 0, 0, 0, 0, 0, 0, 0, 0⟩,
        ⟨5, "b", 0, 0, 0, 0, 0, 0, 0, 0, 0, 0, 0, 0⟩] 3 =
      refTimestamp [⟨0, "a", 0, 0, 0, 0, 0, 0, 0, 0, 0, 0, 0, 0⟩,
        ⟨5, "b", 0, 0, 0, 0, 0, 0, 0, 0, 0, 0, 0, 0⟩]
        (3 % (uniqueTimes (datetimes [⟨0, "a", 0, 0, 0, 0, 0, 0, 0, 0, 0, 0, 0, 0⟩,
          ⟨5, "b", 0, 0, 0, 0, 0, 0, 0, 0, 0, 0, 0, 0⟩])).length) ∧
    refTimestamp [⟨0, "a", 0, 0, 0, 0, 0, 0, 0, 0, 0, 0, 0, 0⟩,
        ⟨5, "b", 0, 0, 0, 0, 0, 0, 0, 0, 0, 0, 0, 0⟩] 0 =
      (uniqueTimes (datetimes [⟨0, "a", 0, 0, 0, 0, 0, 0, 0, 0, 0, 0, 0, 0⟩,
        ⟨5, "b", 0, 0, 0, 0, 0, 0, 0, 0, 0, 0, 0, 0⟩])).headD 0 :=
  C7_scheduler_periodic _ 3 (by decide)

/-- C9: under the scheduler's non-empty-store precondition the positional
index `frame mod N` is a valid position in the record collection, and the
slice selected by exact timestamp equality contains the very record the
reference timestamp was read from, so the empty-slice early return of the
composer is unreachable. -/
theorem C9_slice_nonempty (store : List Record) (f : ℕ) (h : store ≠ []) :
    f % (uniqueTimes (datetimes store)).length < store.length ∧
    currentSlice store f ≠ [] := by
  obtain ⟨hlt, heq⟩ := refTimestamp_eq_get store f h
  refine ⟨hlt, ?_⟩
  apply List.ne_nil_of_mem (a := store[f % (uniqueTimes (datetimes store)).length])
  apply List.mem_filter.2
  exact ⟨List.getElem_mem hlt, by simp [heq]⟩

/-- C9 witness: a store of two records sharing one timestamp plus a third,
evaluated at frame 4. -/
theorem C9_slice_nonempty_witness :
    4 % (uniqueTimes (datetimes [⟨1, "a", 0, 0, 0, 0, 0, 0, 0, 0, 0, 0, 0, 0⟩,
        ⟨1, "b", 0, 0, 0, 0, 0, 0, 0, 0, 0, 0, 0, 0⟩,
        ⟨2, "c", 0, 0, 0, 0, 0, 0, 0, 0, 0, 0, 0, 0⟩])).length <
      ([⟨1, "a", 0, 0, 0, 0, 0, 0, 0, 0, 0, 0, 0, 0⟩,
        ⟨1, "b", 0, 0, 0, 0, 0, 0, 0, 0, 0, 0, 0, 0⟩,
        ⟨2, "c", 0, 0, 0, 0, 0, 0, 0, 0, 0, 0, 0, 0⟩] : List Record).length ∧
    currentSlice [⟨1, "a", 0, 0, 0, 0, 0, 0, 0, 0, 0, 0, 0, 0⟩,
        ⟨1, "b", 0, 0, 0, 0, 0, 0, 0, 0, 0, 0, 0, 0⟩,
        ⟨2, "c", 0, 0, 0, 0, 0, 0, 0, 0, 0, 0, 0, 0⟩] 4 ≠ [] :=
  C9_slice_nonempty _ 4 (by decide)

/-- A store shaped like the repository's actual data: several stations share
each timestamp.  Two records at hour 0 (stations a, b) and one at hour 1. -/
def twoStationStore : List Record :=
  [⟨0, "a", 0, 0, 0, 0, 0, 0, 0, 0, 0, 0, 0, 0⟩,
   ⟨0, "b", 0, 0, 0, 0, 0, 0, 0, 0, 0, 0, 0, 0⟩,
   ⟨1, "a", 0, 0, 0, 0, 0, 0, 0, 0, 0, 0, 0, 0⟩]

/-- C1: the animation callback indexes the FULL `datetime` column with
`frame % len(unique())`, so on `twoStationStore` (distinct timestamps
`[0, 1]`, so `N = 2`) every frame reads one of the first two records, both
at timestamp `0`: frame 1 repeats timestamp 0 instead of advancing to its
successor 1, and timestamp 1 is never the reference timestamp of any frame —
frames are not emitted in looping timestamp order. -/
theorem C1_frames_not_in_timestamp_order :
    uniqueTimes (datetimes twoStationStore) = [0, 1] ∧
    refTimestamp twoStationStore 0 = 0 ∧
    refTimestamp twoStationStore 1 = 0 ∧
    ∀ f, refTimestamp twoStationStore f ≠ 1 := by
  refine ⟨by decide, by decide, by decide, ?_⟩
  intro f
  have h2 : f % 2 = 0 ∨ f % 2 = 1 := by omega
  have hN : (uniqueTimes (datetimes twoStationStore)).length = 2 := by decide
  unfold refTimestamp
  rw [hN]
  rcases h2 with h | h <;> rw [h] <;> decide

/-- C3 counterexample: the record with SO2 = 100 and TEMP = 100 (a value the
record type does not exclude) gets a triangle of size
`clamp(100/30, 0.3, 2.0) * (100+20)/40 = 2 * 3 = 6`, outside the documented
bound `2.0` — the temperature multiplication is applied AFTER the clamp and
can leave the bounds. -/
theorem C3_counterexample_size_exceeds_bounds :
    (triangleFor ⟨0, "s", 0, 0, 100, 0, 0, 0, 100, 0, 0, 0, 0, 0⟩
        ⟨0, 0, 0, 0, 0⟩).size = 6 ∧
    ¬ ((triangleFor ⟨0, "s", 0, 0, 100, 0, 0, 0, 100, 0, 0, 0, 0, 0⟩
        ⟨0, 0, 0, 0, 0⟩).size ≤ 2) := by
  constructor <;> norm_num [triangleFor, triangleSizeBase, tempFactor]

/-- C3 amended: the clamp is applied before the temperature multiplication,
so the emitted size lies within bounds only when the temperature factor
`(temp+20)/40` stays in `[0, 1]`: for temperatures in `[-20, 20]` the size is
within `[0, 2.0]` (so in particular nonnegative); for temperatures outside
that band it can leave the documented bounds and even be negative. -/
theorem C3_amended_triangle_size_bounds (r : Record) (rd : Rand)
    (h1 : -20 ≤ r.temp) (h2 : r.temp ≤ 20) :
    0 ≤ (triangleFor r rd).size ∧ (triangleFor r rd).size ≤ 2 := by
  have hb1 : (3/10 : ℚ) ≤ triangleSizeBase r.so2 := le_max_left _ _
  have hb2 : triangleSizeBase r.so2 ≤ 2 :=
    max_le (by norm_num) (min_le_left _ _)
  have hf0 : 0 ≤ tempFactor r.temp := by
    unfold tempFactor
    apply div_nonneg _ (by norm_num)
    linarith
  have hf1 : tempFactor r.temp ≤ 1 := by
    unfold tempFactor
    rw [div_le_one (by norm_num)]
    linarith
  have hsize : (triangleFor r rd).size = triangleSizeBase r.so2 * tempFactor r.temp := rfl
  rw [hsize]
  constructor
  · exact mul_nonneg (le_trans (by norm_num) hb1) hf0
  · calc triangleSizeBase r.so2 * tempFactor r.temp ≤ 2 * 1 :=
          mul_le_mul hb2 hf1 hf0 (by norm_num)
    _ = 2 := by norm_num

/-- C3 witness for the amended claim: a record with SO2 = 100 and TEMP = 0. -/
theorem C3_amended_witness :
    0 ≤ (triangleFor ⟨0, "s", 0, 0, 100, 0, 0, 0, 0, 0, 0, 0, 0, 0⟩
        ⟨1, 1, 0, 0, 0⟩).size ∧
    (triangleFor ⟨0, "s", 0, 0, 100, 0, 0, 0, 0, 0, 0, 0, 0, 0⟩
        ⟨1, 1, 0, 0, 0⟩).size ≤ 2 :=
  C3_amended_triangle_size_bounds _ _ (by norm_num) (by norm_num)

/-- C5: the line rule emits nothing for a record with wind speed at or below
the threshold 2.0 and exactly one line for a record strictly above it; the
emitted line has width `clamp(wspm, 1, 5)` and its endpoint is the start
point displaced by `length * (cos, sin)(wind direction)` with
`length = clamp(wspm / 2, 1.0, 4.0)`. -/
theorem C5_line_rule (r : Record) (rd : Rand) :
    (r.wspm ≤ 2 → lineFor r rd = none ∧ create_abstract_lines [(r, rd)] = []) ∧
    (2 < r.wspm →
      (create_abstract_lines [(r, rd)]).length = 1 ∧
      ∃ l, lineFor r rd = some l ∧
        l.width = max 1 (min 5 r.wspm) ∧
        (l.endx : ℝ) = (l.startx : ℝ) +
          ((max 1 (min 4 (r.wspm / 2)) : ℚ) : ℝ) * Real.cos (degToRad r.wd) ∧
        (l.endy : ℝ) = (l.starty : ℝ) +
          ((max 1 (min 4 (r.wspm / 2)) : ℚ) : ℝ) * Real.sin (degToRad r.wd)) := by
  constructor
  · intro h
    have hnone : lineFor r rd = none := by
      unfold lineFor
      rw [if_neg (by linarith)]
    exact ⟨hnone, by simp [create_abstract_lines, hnone]⟩
  · intro h
    constructor
    · simp [create_abstract_lines, lineFor, h]
    · refine ⟨_, by unfold lineFor; rw [if_pos h], ?_, ?_, ?_⟩
      · rfl
      · show (rd.x : ℝ) + Real.cos (degToRad r.wd) * ((max 1 (min 4 (r.wspm / 2)) : ℚ) : ℝ) = _
        ring
      · show (rd.y : ℝ) + Real.sin (degToRad r.wd) * ((max 1 (min 4 (r.wspm / 2)) : ℚ) : ℝ) = _
        ring

/-- C5 witness: no line at wind speed 2, one line of width 4 at wind speed 4. -/
theorem C5_line_rule_witness :
    lineFor ⟨0, "s", 0, 0, 0, 0, 0, 0, 0, 0, 0, 0, 2, 0⟩ ⟨0, 0, 0, 0, 0⟩ = none ∧
    (create_abstract_lines
      [(⟨0, "s", 0, 0, 0, 0, 0, 0, 0, 0, 0, 0, 4, 0⟩, ⟨0, 0, 0, 0, 0⟩)]).length = 1 :=
  ⟨((C5_line_rule _ _).1 (by norm_num)).1,
   ((C5_line_rule ⟨0, "s", 0, 0, 0, 0, 0, 0, 0, 0, 0, 0, 4, 0⟩ ⟨0, 0, 0, 0, 0⟩).2
      (by norm_num)).1⟩

/-- Every vertex the polygon loop generates sits at distance `radius` from
the generation center (for nonnegative radius): the displacement is
`radius * (cos, sin)` of some angle. -/
theorem polygonVertices_dist (cx cy radius : ℝ) (sides : ℕ) (h : 0 ≤ radius) :
    ∀ v ∈ polygonVertices cx cy radius sides, euclidDist v (cx, cy) = radius := by
  intro v hv
  rw [polygonVertices, List.mem_map] at hv
  obtain ⟨i, _, rfl⟩ := hv
  unfold euclidDist dist2
  have hs := Real.sin_sq_add_cos_sq (2 * Real.pi * i / sides)
  have hd : (cx + radius * Real.cos (2 * Real.pi * i / sides) - cx) ^ 2 +
      (cy + radius * Real.sin (2 * Real.pi * i / sides) - cy) ^ 2 = radius ^ 2 := by
    linear_combination radius ^ 2 * hs
  rw [hd]
  exact Real.sqrt_sq h

/-- The polygon loop generates exactly `sides` vertices. -/
theorem polygonVertices_length (cx cy radius : ℝ) (sides : ℕ) :
    (polygonVertices cx cy radius sides).length = sides := by
  rw [polygonVertices, List.length_map, List.length_range]

/-- C4: the polygon rule emits nothing for a record with O3 at or below the
trigger threshold 50, and exactly one polygon for a record strictly above it;
the emitted polygon has between 5 and 8 vertices and every vertex is at
distance `clamp(o3 / 100, 0.5, 2.0)` from the generation center. -/
theorem C4_polygon_rule (r : Record) (rd : Rand) :
    (r.o3 ≤ 50 → polygonFor r rd = none ∧ create_abstract_polygons [(r, rd)] = []) ∧
    (50 < r.o3 →
      (create_abstract_polygons [(r, rd)]).length = 1 ∧
      ∃ p, polygonFor r rd = some p ∧
        5 ≤ p.vertices.length ∧ p.vertices.length ≤ 8 ∧
        ∀ v ∈ p.vertices,
          euclidDist v ((rd.x : ℝ), (rd.y : ℝ)) = ((polyRadius r.o3 : ℚ) : ℝ)) := by
  constructor
  · intro h
    have hnone : polygonFor r rd = none := by
      unfold polygonFor
      rw [if_neg (by linarith)]
    exact ⟨hnone, by simp [create_abstract_polygons, hnone]⟩
  · intro h
    constructor
    · simp [create_abstract_polygons, polygonFor, h]
    · refine ⟨_, by unfold polygonFor; rw [if_pos h], ?_, ?_, ?_⟩
      · show 5 ≤ (polygonVertices _ _ _ (5 + (rd.sides : ℕ))).length
        rw [polygonVertices_length]
        omega
      · show (polygonVertices _ _ _ (5 + (rd.sides : ℕ))).length ≤ 8
        rw [polygonVertices_length]
        have := rd.sides.isLt
        omega
      · apply polygonVertices_dist
        have : (1/2 : ℚ) ≤ polyRadius r.o3 := le_max_left _ _
        have h0 : (0 : ℚ) ≤ polyRadius r.o3 := by linarith
        exact_mod_cast h0

/-- C4 witness: no polygon at O3 = 50, one polygon at O3 = 120. -/
theorem C4_polygon_rule_witness :
    polygonFor ⟨0, "s", 0, 0, 0, 0, 0, 50, 0, 0, 0, 0, 0, 0⟩ ⟨0, 0, 0, 0, 0⟩ = none ∧
    (create_abstract_polygons
      [(⟨0, "s", 0, 0, 0, 0, 0, 120, 0, 0, 0, 0, 0, 0⟩, ⟨0, 0, 0, 0, 2⟩)]).length = 1 :=
  ⟨((C4_polygon_rule _ _).1 (by norm_num)).1,
   ((C4_polygon_rule ⟨0, "s", 0, 0, 0, 0, 0, 120, 0, 0, 0, 0, 0, 0⟩ ⟨0, 0, 0, 0, 2⟩).2
      (by norm_num)).1⟩

/-- Rotation preserves squared distances: the standard-rotation-matrix
expansion collapses by the Pythagorean identity. -/
theorem rotatePoint_dist2 (c : ℝ × ℝ) (θ : ℝ) (p q : ℝ × ℝ) :
    dist2 (rotatePoint c θ p) (rotatePoint c θ q) = dist2 p q := by
  unfold rotatePoint dist2
  have hs := Real.sin_sq_add_cos_sq (θ * Real.pi / 180)
  linear_combination ((p.1 - q.1) ^ 2 + (p.2 - q.2) ^ 2) * hs

/-- C6: the draw-time rotation is an isometry — for every pair of vertices,
every center and every angle the distance between the rotated vertices
equals the distance between the originals — and four successive rotations by
90 degrees about the same center return every vertex to its original
position exactly. -/
theorem C6_rotation_isometry :
    (∀ c : ℝ × ℝ, ∀ θ : ℝ, ∀ p q : ℝ × ℝ,
      euclidDist (rotatePoint c θ p) (rotatePoint c θ q) = euclidDist p q) ∧
    (∀ c p : ℝ × ℝ,
      rotatePoint c 90 (rotatePoint c 90 (rotatePoint c 90 (rotatePoint c 90 p))) = p) := by
  constructor
  · intro c θ p q
    unfold euclidDist
    rw [rotatePoint_dist2]
  · intro c p
    have h90 : (90 : ℝ) * Real.pi / 180 = Real.pi / 2 := by ring
    obtain ⟨c1, c2⟩ := c
    obtain ⟨p1, p2⟩ := p
    simp only [rotatePoint, h90, Real.cos_pi_div_two, Real.sin_pi_div_two]
    rw [Prod.mk.injEq]
    constructor <;> ring

/-- C8: on an empty record slice the frame composer emits no primitives of
any kind, keeps the `setup_plot` default background color, and (being a
total function) does not raise. -/
theorem C8_empty_slice_composition (store : List Record) (t : ℕ)
    (rc rt rr rl rp : ℕ → Rand)
    (h : store.filter (fun r => r.datetime == t) = []) :
    composeForTime store t rc rt rr rl rp =
      { circles := [], triangles := [], rectangles := [], lines := [],
        polygons := [], background := defaultBg } := by
  unfold composeForTime
  simp [h]

/-- C8 witness: the empty store and timestamp 0. -/
theorem C8_empty_slice_witness :
    composeForTime [] 0 (fun _ => ⟨0, 0, 0, 0, 0⟩) (fun _ => ⟨0, 0, 0, 0, 0⟩)
        (fun _ => ⟨0, 0, 0, 0, 0⟩) (fun _ => ⟨0, 0, 0, 0, 0⟩) (fun _ => ⟨0, 0, 0, 0, 0⟩) =
      { circles := [], triangles := [], rectangles := [], lines := [],
        polygons := [], background := defaultBg } :=
  C8_empty_slice_composition [] 0 _ _ _ _ _ rfl

end WeatherArt
